import Mathlib

/-!
Verification of `docs/projects/burglarAlarm/burglarAlarm.py`.

The script configures two PIR motion sensors (`snsr_bedroom`, `snsr_living_room`),
two indicator LEDs (`led_bedroom`, `led_living_room`) and a shared `buzzer`,
installs `pir_handler` as the rising-edge IRQ handler of both sensors, and then
runs an infinite heartbeat loop that toggles both LEDs once per second.

We embed the program shallowly as trace-producing functions.  An `Event` records
each observable action of the Python code, in program order: a `print`, a
`toggle()` on an output pin, a read of the triggering sensor (`pin.value()`),
or a sleep (both `time.sleep_ms(100)` and `time.sleep(1)` are recorded in
milliseconds).  The handler is parametrised by the identity of the pin object it
was invoked with and by the stream of values successive `pin.value()` calls
would return, so that "reads the sensor exactly once" is a provable statement
rather than a modelling assumption.
-/

/-- Identity of the pin object passed to `pir_handler`.  The Python code
dispatches with `pin is snsr_bedroom` / `pin is snsr_living_room` (object
identity); `otherPin` stands for any pin object identical to neither sensor. -/
inductive SensorId
  | snsr_bedroom
  | snsr_living_room
  | otherPin
  deriving DecidableEq

/-- The three output pins of the script. -/
inductive OutPin
  | led_bedroom
  | led_living_room
  | buzzer
  deriving DecidableEq

/-- One observable action of the program, in program order. -/
inductive Event
  | printE (s : String)
  | toggleE (p : OutPin)
  | readE (b : Bool)
  | sleepMs (n : Nat)
  deriving DecidableEq

/-- The alert message printed for the bedroom zone (source line 18). -/
def alarmBedroomMsg : String := "ALARM! Motion detected in bedroom!"

/-- The alert message printed for the living-room zone (source line 24). -/
def alarmLivingRoomMsg : String := "ALARM! Motion detected in living room!"

/-- One iteration of the alarm pulse loop body (source lines 20-22 / 26-28):
toggle the zone LED, toggle the buzzer, sleep 100 ms. -/
def pulseIter (zoneLed : OutPin) : List Event :=
  [Event.toggleE zoneLed, Event.toggleE OutPin.buzzer, Event.sleepMs 100]

/-- The `for i in range(10)` pulse loop of `pir_handler`. -/
def pulseSeq (zoneLed : OutPin) : List Event :=
  (List.range 10).flatMap fun _ => pulseIter zoneLed

/-- The IRQ handler `pir_handler(pin)` (source lines 14-28).  `reads n` is the
value the (n+1)-st call to `pin.value()` would return; the code performs
exactly one such call, after `time.sleep_ms(100)`. -/
def pir_handler (pin : SensorId) (reads : Nat → Bool) : List Event :=
  Event.sleepMs 100 ::
  Event.readE (reads 0) ::
  if reads 0 then
    match pin with
    | SensorId.snsr_bedroom =>
        Event.printE alarmBedroomMsg :: pulseSeq OutPin.led_bedroom
    | SensorId.snsr_living_room =>
        Event.printE alarmLivingRoomMsg :: pulseSeq OutPin.led_living_room
    | SensorId.otherPin => []
  else []

/-- One iteration of the heartbeat loop (source lines 34-37): toggle both LEDs,
then `time.sleep(1)` (= 1000 ms). -/
def heartbeatIter : List Event :=
  [Event.toggleE OutPin.led_bedroom, Event.toggleE OutPin.led_living_room,
   Event.sleepMs 1000]

/-- `n` consecutive iterations of the infinite heartbeat loop with no
interrupt in between. -/
def heartbeat (n : Nat) : List Event :=
  (List.range n).flatMap fun _ => heartbeatIter

/-- Electrical level of the three output pins. -/
structure PinState where
  led_bedroom : Bool
  led_living_room : Bool
  buzzer : Bool
  deriving DecidableEq

/-- Read an output pin's level. -/
def getPin (s : PinState) (p : OutPin) : Bool :=
  match p with
  | OutPin.led_bedroom => s.led_bedroom
  | OutPin.led_living_room => s.led_living_room
  | OutPin.buzzer => s.buzzer

/-- Effect of one event on the output pins: `toggle()` flips the pin, every
other event leaves the pins unchanged. -/
def applyEvent (s : PinState) (e : Event) : PinState :=
  match e with
  | Event.toggleE OutPin.led_bedroom => { s with led_bedroom := !s.led_bedroom }
  | Event.toggleE OutPin.led_living_room =>
      { s with led_living_room := !s.led_living_room }
  | Event.toggleE OutPin.buzzer => { s with buzzer := !s.buzzer }
  | _ => s

/-- Run a trace of events over the output-pin state. -/
def applyTrace (s : PinState) (tr : List Event) : PinState :=
  tr.foldl applyEvent s

/-- Number of `toggle()` calls on pin `p` recorded in a trace. -/
def toggleCount (p : OutPin) (tr : List Event) : Nat :=
  tr.countP fun e => decide (e = Event.toggleE p)

/-- The lines of console output recorded in a trace, in order. -/
def printedLines (tr : List Event) : List String :=
  tr.filterMap fun e =>
    match e with
    | Event.printE s => some s
    | _ => none

/-- Number of sensor reads (`pin.value()` calls) recorded in a trace. -/
def readCount (tr : List Event) : Nat :=
  tr.countP fun e =>
    match e with
    | Event.readE _ => true
    | _ => false

/-- Sub-trace of the events relevant to the alerting device: buzzer toggles
and sleeps (so it carries both the toggle count and the spacing). -/
def buzzerTimeline (tr : List Event) : List Event :=
  tr.filter fun e =>
    match e with
    | Event.toggleE OutPin.buzzer => true
    | Event.sleepMs _ => true
    | _ => false

/-- Relative phase of the two indicators: exclusive-or of their levels. -/
def indicatorXor (s : PinState) : Bool :=
  xor s.led_bedroom s.led_living_room

/-! ### Helper lemmas -/

lemma pir_handler_true (pin : SensorId) (reads : Nat → Bool) (h : reads 0 = true) :
    pir_handler pin reads =
      Event.sleepMs 100 :: Event.readE true ::
        (match pin with
         | SensorId.snsr_bedroom =>
             Event.printE alarmBedroomMsg :: pulseSeq OutPin.led_bedroom
         | SensorId.snsr_living_room =>
             Event.printE alarmLivingRoomMsg :: pulseSeq OutPin.led_living_room
         | SensorId.otherPin => []) := by
  simp [pir_handler, h]

lemma pir_handler_false (pin : SensorId) (reads : Nat → Bool) (h : reads 0 = false) :
    pir_handler pin reads = [Event.sleepMs 100, Event.readE false] := by
  simp [pir_handler, h]

lemma heartbeat_succ (n : Nat) : heartbeat (n + 1) = heartbeat n ++ heartbeatIter := by
  simp [heartbeat, List.range_succ]

lemma toggleCount_append (p : OutPin) (l1 l2 : List Event) :
    toggleCount p (l1 ++ l2) = toggleCount p l1 + toggleCount p l2 := by
  simp [toggleCount, List.countP_append]

lemma printedLines_append (l1 l2 : List Event) :
    printedLines (l1 ++ l2) = printedLines l1 ++ printedLines l2 := by
  simp [printedLines]

lemma applyTrace_append (s : PinState) (l1 l2 : List Event) :
    applyTrace s (l1 ++ l2) = applyTrace (applyTrace s l1) l2 := by
  simp [applyTrace, List.foldl_append]

lemma printedLines_heartbeat (n : Nat) : printedLines (heartbeat n) = [] := by
  induction n with
  | zero => rfl
  | succ n ih => rw [heartbeat_succ, printedLines_append, ih]; rfl

lemma inPhase_all_prefixes (led : OutPin) (l : List Event)
    (h : ∀ k, k ≤ l.length →
      toggleCount OutPin.buzzer (l.take k) ≤ toggleCount led (l.take k) ∧
      toggleCount led (l.take k) ≤ toggleCount OutPin.buzzer (l.take k) + 1) :
    ∀ k, toggleCount OutPin.buzzer (l.take k) ≤ toggleCount led (l.take k) ∧
         toggleCount led (l.take k) ≤ toggleCount OutPin.buzzer (l.take k) + 1 := by
  intro k
  rcases le_or_lt k l.length with hk | hk
  · exact h k hk
  · rw [List.take_of_length_le (Nat.le_of_lt hk)]
    have h2 := h l.length Nat.le.refl
    rwa [List.take_length] at h2

/-! ### Claim theorems -/

/-- C1 counterexample: on a confirmed bedroom trigger the bedroom indicator is
toggled 10 times, not the 20 times the claim states. -/
theorem C1_twenty_toggles_counterexample :
    ¬ toggleCount OutPin.led_bedroom
        (pir_handler SensorId.snsr_bedroom (fun _ => true)) = 20 := by
  decide

/-- C1 (amended): for every trigger whose sensor level is read as high after
the 100 ms debounce delay, the handler produces exactly one alert message
naming the corresponding zone, and the corresponding zone indicator and the
shared alerting device (buzzer) each toggle exactly 10 times (5 full on/off
cycles) over the pulse sequence. -/
theorem C1_confirmed_trigger_effects (reads : Nat → Bool) (h : reads 0 = true) :
    (printedLines (pir_handler SensorId.snsr_bedroom reads) = [alarmBedroomMsg] ∧
      toggleCount OutPin.led_bedroom (pir_handler SensorId.snsr_bedroom reads) = 10 ∧
      toggleCount OutPin.buzzer (pir_handler SensorId.snsr_bedroom reads) = 10) ∧
    (printedLines (pir_handler SensorId.snsr_living_room reads) = [alarmLivingRoomMsg] ∧
      toggleCount OutPin.led_living_room (pir_handler SensorId.snsr_living_room reads) = 10 ∧
      toggleCount OutPin.buzzer (pir_handler SensorId.snsr_living_room reads) = 10) := by
  rw [pir_handler_true SensorId.snsr_bedroom reads h,
      pir_handler_true SensorId.snsr_living_room reads h]
  decide

/-- Witness for C1: the amended claim evaluated on a sensor that stays high. -/
theorem C1_confirmed_trigger_effects_witness :
    (printedLines (pir_handler SensorId.snsr_bedroom fun _ => true) = [alarmBedroomMsg] ∧
      toggleCount OutPin.led_bedroom (pir_handler SensorId.snsr_bedroom fun _ => true) = 10 ∧
      toggleCount OutPin.buzzer (pir_handler SensorId.snsr_bedroom fun _ => true) = 10) ∧
    (printedLines (pir_handler SensorId.snsr_living_room fun _ => true) = [alarmLivingRoomMsg] ∧
      toggleCount OutPin.led_living_room (pir_handler SensorId.snsr_living_room fun _ => true) = 10 ∧
      toggleCount OutPin.buzzer (pir_handler SensorId.snsr_living_room fun _ => true) = 10) :=
  C1_confirmed_trigger_effects (fun _ => true) rfl

/-- C2: on a confirmed trigger the handler runs the fixed pulse sequence
(zone LED toggle, buzzer toggle, 100 ms sleep, ten times), so the zone
indicator and the buzzer each toggle 10 times, and in every prefix of the
trace their toggle counts differ by at most one (they stay in phase). -/
theorem C2_pulse_sequence_in_phase (pin : SensorId) (led : OutPin) (msg : String)
    (reads : Nat → Bool) (h : reads 0 = true)
    (hz : (pin = SensorId.snsr_bedroom ∧ led = OutPin.led_bedroom ∧
            msg = alarmBedroomMsg) ∨
          (pin = SensorId.snsr_living_room ∧ led = OutPin.led_living_room ∧
            msg = alarmLivingRoomMsg)) :
    pir_handler pin reads =
      Event.sleepMs 100 :: Event.readE true :: Event.printE msg :: pulseSeq led ∧
    toggleCount led (pir_handler pin reads) = 10 ∧
    toggleCount OutPin.buzzer (pir_handler pin reads) = 10 ∧
    ∀ k, toggleCount OutPin.buzzer ((pir_handler pin reads).take k) ≤
           toggleCount led ((pir_handler pin reads).take k) ∧
         toggleCount led ((pir_handler pin reads).take k) ≤
           toggleCount OutPin.buzzer ((pir_handler pin reads).take k) + 1 := by
  rcases hz with ⟨hp, hl, hm⟩ | ⟨hp, hl, hm⟩ <;> subst hp <;> subst hl <;> subst hm <;>
    rw [pir_handler_true _ reads h]
  · exact ⟨rfl, by decide, by decide, inPhase_all_prefixes _ _ (by decide)⟩
  · exact ⟨rfl, by decide, by decide, inPhase_all_prefixes _ _ (by decide)⟩

/-- Witness for C2: the bedroom zone with a sensor that stays high. -/
theorem C2_pulse_sequence_in_phase_witness :
    pir_handler SensorId.snsr_bedroom (fun _ => true) =
      Event.sleepMs 100 :: Event.readE true ::
        Event.printE alarmBedroomMsg :: pulseSeq OutPin.led_bedroom ∧
    toggleCount OutPin.led_bedroom (pir_handler SensorId.snsr_bedroom fun _ => true) = 10 ∧
    toggleCount OutPin.buzzer (pir_handler SensorId.snsr_bedroom fun _ => true) = 10 ∧
    ∀ k, toggleCount OutPin.buzzer ((pir_handler SensorId.snsr_bedroom fun _ => true).take k) ≤
           toggleCount OutPin.led_bedroom ((pir_handler SensorId.snsr_bedroom fun _ => true).take k) ∧
         toggleCount OutPin.led_bedroom ((pir_handler SensorId.snsr_bedroom fun _ => true).take k) ≤
           toggleCount OutPin.buzzer ((pir_handler SensorId.snsr_bedroom fun _ => true).take k) + 1 :=
  C2_pulse_sequence_in_phase SensorId.snsr_bedroom OutPin.led_bedroom alarmBedroomMsg
    (fun _ => true) rfl (Or.inl ⟨rfl, rfl, rfl⟩)

/-- C3: when the sensor level reads low after the debounce delay, the handler
aborts with no side effects: no line is printed, no pin is toggled, and the
output-pin state is unchanged. -/
theorem C3_debounce_reject (pin : SensorId) (reads : Nat → Bool) (p : OutPin)
    (s : PinState) (h : reads 0 = false) :
    printedLines (pir_handler pin reads) = [] ∧
    toggleCount p (pir_handler pin reads) = 0 ∧
    applyTrace s (pir_handler pin reads) = s := by
  rw [pir_handler_false pin reads h]
  exact ⟨rfl, by cases p <;> rfl, rfl⟩

/-- Witness for C3: a living-room pulse that has dropped back low by the time
of the post-debounce read. -/
theorem C3_debounce_reject_witness :
    printedLines (pir_handler SensorId.snsr_living_room fun _ => false) = [] ∧
    toggleCount OutPin.led_living_room
      (pir_handler SensorId.snsr_living_room fun _ => false) = 0 ∧
    applyTrace ⟨false, false, false⟩
      (pir_handler SensorId.snsr_living_room fun _ => false) = ⟨false, false, false⟩ :=
  C3_debounce_reject SensorId.snsr_living_room (fun _ => false)
    OutPin.led_living_room ⟨false, false, false⟩ rfl

/-- C4: a bedroom trigger never toggles the living-room indicator and a
living-room trigger never toggles the bedroom indicator, while the two trigger
paths drive the alerting device identically (same buzzer toggles with the same
sleeps around them), whatever the post-debounce read. -/
theorem C4_zone_isolation (reads : Nat → Bool) :
    toggleCount OutPin.led_living_room (pir_handler SensorId.snsr_bedroom reads) = 0 ∧
    toggleCount OutPin.led_bedroom (pir_handler SensorId.snsr_living_room reads) = 0 ∧
    buzzerTimeline (pir_handler SensorId.snsr_bedroom reads) =
      buzzerTimeline (pir_handler SensorId.snsr_living_room reads) := by
  cases h : reads 0
  · rw [pir_handler_false SensorId.snsr_bedroom reads h,
        pir_handler_false SensorId.snsr_living_room reads h]
    decide
  · rw [pir_handler_true SensorId.snsr_bedroom reads h,
        pir_handler_true SensorId.snsr_living_room reads h]
    decide

/-- C5: over `n` uninterrupted heartbeat iterations (one per second, each
toggling both LEDs once and then sleeping 1 s), each indicator toggles exactly
`n` times and the alerting device is never written by the loop. -/
theorem C5_heartbeat_counts (n : Nat) :
    heartbeatIter = [Event.toggleE OutPin.led_bedroom,
      Event.toggleE OutPin.led_living_room, Event.sleepMs 1000] ∧
    toggleCount OutPin.led_bedroom (heartbeat n) = n ∧
    toggleCount OutPin.led_living_room (heartbeat n) = n ∧
    toggleCount OutPin.buzzer (heartbeat n) = 0 := by
  refine ⟨rfl, ?_⟩
  induction n with
  | zero => exact ⟨rfl, rfl, rfl⟩
  | succ n ih =>
    rcases ih with ⟨h1, h2, h3⟩
    rw [heartbeat_succ]
    exact ⟨by rw [toggleCount_append, h1]; rfl, by rw [toggleCount_append, h2]; rfl,
      by rw [toggleCount_append, h3]; rfl⟩

/-- C6: a confirmed bedroom trigger prints exactly the line naming the bedroom
and a confirmed living-room trigger exactly the line naming the living room;
nothing else in the program prints: a rejected trigger, a trigger from an
unrecognized pin, and the heartbeat loop all produce no console output. -/
theorem C6_console_output (reads readsLow : Nat → Bool) (pin : SensorId)
    (n : Nat) (h : reads 0 = true) (hlow : readsLow 0 = false) :
    printedLines (pir_handler SensorId.snsr_bedroom reads) = [alarmBedroomMsg] ∧
    printedLines (pir_handler SensorId.snsr_living_room reads) = [alarmLivingRoomMsg] ∧
    printedLines (pir_handler pin readsLow) = [] ∧
    printedLines (pir_handler SensorId.otherPin reads) = [] ∧
    printedLines (heartbeat n) = [] := by
  rw [pir_handler_true SensorId.snsr_bedroom reads h,
      pir_handler_true SensorId.snsr_living_room reads h,
      pir_handler_true SensorId.otherPin reads h,
      pir_handler_false pin readsLow hlow]
  exact ⟨rfl, rfl, rfl, rfl, printedLines_heartbeat n⟩

/-- Witness for C6: a high sensor, a low sensor and five heartbeat seconds. -/
theorem C6_console_output_witness :
    printedLines (pir_handler SensorId.snsr_bedroom fun _ => true) = [alarmBedroomMsg] ∧
    printedLines (pir_handler SensorId.snsr_living_room fun _ => true) = [alarmLivingRoomMsg] ∧
    printedLines (pir_handler SensorId.snsr_bedroom fun _ => false) = [] ∧
    printedLines (pir_handler SensorId.otherPin fun _ => true) = [] ∧
    printedLines (heartbeat 5) = [] :=
  C6_console_output (fun _ => true) (fun _ => false) SensorId.snsr_bedroom 5 rfl rfl

/-- C7: invoked with a pin identical to neither sensor, the handler prints
nothing and toggles nothing even when the post-debounce read is high: there is
no fallback branch for an unrecognized pin identity. -/
theorem C7_unknown_pin_no_effects (reads : Nat → Bool) (p : OutPin)
    (s : PinState) (h : reads 0 = true) :
    printedLines (pir_handler SensorId.otherPin reads) = [] ∧
    toggleCount p (pir_handler SensorId.otherPin reads) = 0 ∧
    applyTrace s (pir_handler SensorId.otherPin reads) = s := by
  rw [pir_handler_true SensorId.otherPin reads h]
  exact ⟨rfl, by cases p <;> rfl, rfl⟩

/-- Witness for C7: an unrecognized pin reading high. -/
theorem C7_unknown_pin_no_effects_witness :
    printedLines (pir_handler SensorId.otherPin fun _ => true) = [] ∧
    toggleCount OutPin.buzzer (pir_handler SensorId.otherPin fun _ => true) = 0 ∧
    applyTrace ⟨true, false, true⟩ (pir_handler SensorId.otherPin fun _ => true) =
      ⟨true, false, true⟩ :=
  C7_unknown_pin_no_effects (fun _ => true) OutPin.buzzer ⟨true, false, true⟩ rfl

/-- C8: the handler performs exactly one sensor read, placed right after the
100 ms debounce sleep, and its whole trace is a function of the pin identity
and that single read: two invocations whose first read agrees produce
identical traces, whatever the sensor level does later. -/
theorem C8_single_read_determinism (pin : SensorId) (reads reads2 : Nat → Bool)
    (h : reads 0 = reads2 0) :
    pir_handler pin reads = pir_handler pin reads2 ∧
    readCount (pir_handler pin reads) = 1 ∧
    (pir_handler pin reads).take 2 = [Event.sleepMs 100, Event.readE (reads 0)] := by
  cases h0 : reads 0 with
  | false =>
    have h2 : reads2 0 = false := by rw [← h, h0]
    rw [pir_handler_false pin reads h0, pir_handler_false pin reads2 h2]
    exact ⟨rfl, rfl, rfl⟩
  | true =>
    have h2 : reads2 0 = true := by rw [← h, h0]
    rw [pir_handler_true pin reads h0, pir_handler_true pin reads2 h2]
    exact ⟨rfl, by cases pin <;> rfl, by cases pin <;> rfl⟩

/-- Witness for C8: two read streams that agree on the first read but differ
afterwards give the same trace. -/
theorem C8_single_read_determinism_witness :
    pir_handler SensorId.snsr_bedroom (fun _ => true) =
      pir_handler SensorId.snsr_bedroom (fun n => Nat.beq n 0) ∧
    readCount (pir_handler SensorId.snsr_bedroom fun _ => true) = 1 ∧
    (pir_handler SensorId.snsr_bedroom fun _ => true).take 2 =
      [Event.sleepMs 100, Event.readE true] :=
  C8_single_read_determinism SensorId.snsr_bedroom (fun _ => true)
    (fun n => Nat.beq n 0) rfl

/-- C9: every heartbeat iteration toggles both indicators together, so any
heartbeat-only execution leaves the exclusive-or of the two indicator levels
exactly as it started. -/
theorem C9_heartbeat_preserves_xor (n : Nat) (s : PinState) :
    indicatorXor (applyTrace s (heartbeat n)) = indicatorXor s ∧
    indicatorXor (applyTrace s heartbeatIter) = indicatorXor s := by
  have hiter : ∀ t : PinState,
      indicatorXor (applyTrace t heartbeatIter) = indicatorXor t := by
    intro t
    rcases t with ⟨a, b, c⟩
    cases a <;> cases b <;> rfl
  refine ⟨?_, hiter s⟩
  induction n with
  | zero => rfl
  | succ n ih =>
    rw [heartbeat_succ, applyTrace_append, hiter, ih]
